import Mathlib

/-!
# Homelytics backend: query builder, pagination and lookup handlers

A shallow embedding of `backend/handlers/properties.go` and
`backend/models/property.go`.

* Go `string` is `String`; Go `int` is a 64-bit two's-complement integer,
  carried as an `Int` and wrapped explicitly where arithmetic can overflow.
* Go `float64` is `Float64` below: a NaN, an infinity, or a signed dyadic
  number.  The query builder only ever compares such a value with zero.  The
  one floating-point computation of the handlers, the page count, is carried
  out on integers with explicit rounding to a 53-bit significand.
* The database is an explicit oracle passed to the handlers, and
  `strconv.ParseFloat` a parameter of the request parser.
-/

namespace Homelytics

/-! ## Data model (`models/property.go`) -/

/-- Go `float64`: NaN, plus or minus infinity, or the finite value
`(-1)^neg * m * 2^e`.  Both zeros are `finite _ 0 _`. -/
inductive Float64 where
  | nan : Float64
  | inf (neg : Bool) : Float64
  | finite (neg : Bool) (m : Nat) (e : Int) : Float64
  deriving DecidableEq, Repr

/-- The Go comparison `f > 0` on a `float64`: false for NaN, for both zeros and
for every negative value. -/
def Float64.gtZero : Float64 → Bool
  | .nan => false
  | .inf neg => !neg
  | .finite neg m _ => !neg && decide (0 < m)

/-- An element of the argument slice handed to the SQL driver: a string, a
`float64` or an `int`. -/
inductive Value where
  | str (s : String) : Value
  | float (f : Float64) : Value
  | int (i : Int) : Value
  deriving DecidableEq, Repr

/-- The struct `models.PropertySearchParams`. -/
structure PropertySearchParams where
  City : String
  ZipCode : String
  MinPrice : Float64
  MaxPrice : Float64
  Bedrooms : Int
  Bathrooms : Float64
  PropertyType : String
  Keyword : String
  Page : Int
  Limit : Int
  deriving DecidableEq, Repr

/-! ## `buildSearchQuery` -/

/-- The raw string literal that `buildSearchQuery` starts from, up to and
excluding its final `WHERE 1=1`. -/
def selectHead : String :=
  "SELECT id, mls_number, address, city, state, zip_code, price,\n\t          bedrooms, bathrooms, square_feet, lot_size, year_built,\n\t          property_type, description, photo_url, listing_date, status,\n\t          latitude, longitude FROM rets_property "

/-- The raw string literal that `buildSearchQuery` starts from. -/
def baseQuery : String :=
  "SELECT id, mls_number, address, city, state, zip_code, price,\n\t          bedrooms, bathrooms, square_feet, lot_size, year_built,\n\t          property_type, description, photo_url, listing_date, status,\n\t          latitude, longitude FROM rets_property WHERE 1=1"

def cityClause : String := " AND LOWER(city) = LOWER(?)"
def zipClause : String := " AND zip_code = ?"
def minPriceClause : String := " AND price >= ?"
def maxPriceClause : String := " AND price <= ?"
def bedroomsClause : String := " AND bedrooms >= ?"
def bathroomsClause : String := " AND bathrooms >= ?"
def propertyTypeClause : String := " AND LOWER(property_type) = LOWER(?)"
def keywordClause : String :=
  " AND (LOWER(address) LIKE LOWER(?) OR LOWER(description) LIKE LOWER(?) OR LOWER(city) LIKE LOWER(?))"

/-- One `if cond { query += clause; args = append(args, vals...) }` statement of
`buildSearchQuery`, acting on the pair `(query, args)`. -/
def addFilter (cond : Bool) (clause : String) (vals : List Value)
    (acc : String × List Value) : String × List Value :=
  if cond then (acc.1 ++ clause, acc.2 ++ vals) else acc

/-- The method `PropertyHandler.buildSearchQuery`: the eight conditional appends, in source
order, starting from the base query and the empty argument list. -/
def buildSearchQuery (params : PropertySearchParams) : String × List Value :=
  let acc : String × List Value := (baseQuery, [])
  let acc := addFilter (params.City != "") cityClause [.str params.City] acc
  let acc := addFilter (params.ZipCode != "") zipClause [.str params.ZipCode] acc
  let acc := addFilter params.MinPrice.gtZero minPriceClause [.float params.MinPrice] acc
  let acc := addFilter params.MaxPrice.gtZero maxPriceClause [.float params.MaxPrice] acc
  let acc := addFilter (decide (params.Bedrooms > 0)) bedroomsClause [.int params.Bedrooms] acc
  let acc := addFilter params.Bathrooms.gtZero bathroomsClause [.float params.Bathrooms] acc
  let acc := addFilter (params.PropertyType != "") propertyTypeClause
    [.str params.PropertyType] acc
  let keyword := "%" ++ params.Keyword ++ "%"
  let acc := addFilter (params.Keyword != "") keywordClause
    [.str keyword, .str keyword, .str keyword] acc
  acc

/-- Number of `?` placeholders in a piece of SQL text. -/
def placeholders (s : String) : Nat := s.data.count '?'

/-- The specification's reading of the builder: a table of the eight filters in
the stated order, each with its presence test, its clause and the values it
binds. -/
def filterTable (p : PropertySearchParams) : List (Bool × String × List Value) :=
  [ (p.City != "", " AND LOWER(city) = LOWER(?)", [.str p.City]),
    (p.ZipCode != "", " AND zip_code = ?", [.str p.ZipCode]),
    (p.MinPrice.gtZero, " AND price >= ?", [.float p.MinPrice]),
    (p.MaxPrice.gtZero, " AND price <= ?", [.float p.MaxPrice]),
    (decide (p.Bedrooms > 0), " AND bedrooms >= ?", [.int p.Bedrooms]),
    (p.Bathrooms.gtZero, " AND bathrooms >= ?", [.float p.Bathrooms]),
    (p.PropertyType != "", " AND LOWER(property_type) = LOWER(?)", [.str p.PropertyType]),
    (p.Keyword != "",
      " AND (LOWER(address) LIKE LOWER(?) OR LOWER(description) LIKE LOWER(?) OR LOWER(city) LIKE LOWER(?))",
      List.replicate 3 (.str ("%" ++ p.Keyword ++ "%"))) ]

/-- The specification's query text: the base query followed by the clauses of
the present filters, in table order. -/
def specQuery (p : PropertySearchParams) : String :=
  baseQuery ++ String.join (((filterTable p).filter (fun f => f.1)).map (fun f => f.2.1))

/-- The specification's argument list: the bound values of the present filters,
in table order. -/
def specArgs (p : PropertySearchParams) : List Value :=
  (((filterTable p).filter (fun f => f.1)).map (fun f => f.2.2)).flatten

/-- Two parameter values have the same filters present. -/
def samePresence (p q : PropertySearchParams) : Prop :=
  (p.City = "" ↔ q.City = "") ∧ (p.ZipCode = "" ↔ q.ZipCode = "") ∧
  (p.MinPrice.gtZero = q.MinPrice.gtZero) ∧ (p.MaxPrice.gtZero = q.MaxPrice.gtZero) ∧
  (p.Bedrooms > 0 ↔ q.Bedrooms > 0) ∧ (p.Bathrooms.gtZero = q.Bathrooms.gtZero) ∧
  (p.PropertyType = "" ↔ q.PropertyType = "") ∧ (p.Keyword = "" ↔ q.Keyword = "")

/-! ## The count query derived in `GetProperties` (lines 78-81) -/

/-- Go `strings.Replace(s, old, new, 1)` on the characters of the strings:
the first occurrence of `old` is replaced by `new`, and `s` is returned
unchanged when `old` does not occur. -/
def replaceFirst : List Char → List Char → List Char → List Char
  | [], old, new => if old.isEmpty then new else []
  | c :: cs, old, new =>
    if old.isPrefixOf (c :: cs) then new ++ (c :: cs).drop old.length
    else c :: replaceFirst cs old new

/-- Go `strings.Split(s, sep)[0]` for a non-empty `sep`: the part of `s` before
the first occurrence of `sep`, all of `s` when there is none. -/
def splitHead : List Char → List Char → List Char
  | [], _ => []
  | c :: cs, sep => if sep.isPrefixOf (c :: cs) then [] else c :: splitHead cs sep

/-- The three statements that derive `countQuery` from `query`. -/
def countQueryOf (query : String) : String :=
  let countQuery := String.mk (replaceFirst query.data "SELECT *".data "SELECT COUNT(*)".data)
  let countQuery := String.mk (splitHead countQuery.data "ORDER BY".data)
  let countQuery := String.mk (splitHead countQuery.data "LIMIT".data)
  countQuery

/-- The count query the specification asks for: `COUNT(*)` over the same table
and the same predicate. -/
def specCountQuery (predicate : String) : String :=
  "SELECT COUNT(*) FROM rets_property WHERE " ++ predicate

/-! ## Request parsing (lines 29-73) -/

/-- Digits of a decimal numeral, most significant first, accumulated into
`acc`; `none` when a character is not an ASCII digit. -/
def parseDigits : List Char → Nat → Option Nat
  | [], acc => some acc
  | c :: cs, acc =>
    if '0' ≤ c ∧ c ≤ '9' then parseDigits cs (acc * 10 + (c.toNat - 48)) else none

/-- Go `strconv.Atoi` for a 64-bit `int`: an optional sign, then at least one
decimal digit, and a value within `[-2^63, 2^63 - 1]`; `none` stands for a
non-nil error. -/
def Atoi (s : String) : Option Int :=
  match s.data with
  | [] => none
  | '-' :: ds =>
    if ds.isEmpty then none
    else (parseDigits ds 0).bind fun n => if n ≤ 2 ^ 63 then some (-(n : Int)) else none
  | '+' :: ds =>
    if ds.isEmpty then none
    else (parseDigits ds 0).bind fun n => if n < 2 ^ 63 then some (n : Int) else none
  | ds => (parseDigits ds 0).bind fun n => if n < 2 ^ 63 then some (n : Int) else none

/-- Lines 39-43: the `page` field, starting from the default 1. -/
def parsePage (page : String) : Int :=
  if page != "" then
    match Atoi page with
    | some p => if p > 0 then p else 1
    | none => 1
  else 1

/-- Lines 45-49: the `limit` field, starting from the default 20. -/
def parseLimit (limit : String) : Int :=
  if limit != "" then
    match Atoi limit with
    | some l => if l > 0 ∧ l ≤ 100 then l else 20
    | none => 20
  else 20

/-- Lines 51-61 and 69-73: a `float64` field, left at its zero value unless the
text is non-empty and `strconv.ParseFloat` accepts it. -/
def parseFloatField (parseFloat : String → Option Float64) (raw : String) : Float64 :=
  if raw != "" then
    match parseFloat raw with
    | some f => f
    | none => .finite false 0 0
  else .finite false 0 0

/-- Lines 63-67: the `bedrooms` field. -/
def parseBedrooms (raw : String) : Int :=
  if raw != "" then
    match Atoi raw with
    | some b => b
    | none => 0
  else 0

/-- Lines 29-73 of `GetProperties`.  `get key` is `r.URL.Query().Get(key)` and
`parseFloat` is `strconv.ParseFloat(_, 64)`. -/
def parseParams (parseFloat : String → Option Float64) (get : String → String) :
    PropertySearchParams :=
  { City := get "city"
    ZipCode := get "zip_code"
    PropertyType := get "property_type"
    Keyword := get "keyword"
    Page := parsePage (get "page")
    Limit := parseLimit (get "limit")
    MinPrice := parseFloatField parseFloat (get "min_price")
    MaxPrice := parseFloatField parseFloat (get "max_price")
    Bedrooms := parseBedrooms (get "bedrooms")
    Bathrooms := parseFloatField parseFloat (get "bathrooms") }

/-! ## Pagination arithmetic (lines 92-93 and 120) -/

/-- A mathematical integer reduced to the 64-bit two's-complement `int`. -/
def wrapInt64 (x : Int) : Int := (x + 2 ^ 63) % 2 ^ 64 - 2 ^ 63

/-- Line 92: `offset := (params.Page - 1) * params.Limit` in 64-bit `int`
arithmetic. -/
def offsetOf (page limit : Int) : Int := wrapInt64 (wrapInt64 (page - 1) * limit)

/-- Line 93: the text appended to the query; `%d` renders a decimal integer. -/
def pageSuffix (limit offset : Int) : String :=
  " ORDER BY listing_date DESC LIMIT " ++ toString limit ++ " OFFSET " ++ toString offset

/-- Lines 92-95: the statement and arguments passed to `h.DB.Query`. -/
def pagedQuery (params : PropertySearchParams) : String × List Value :=
  let (query, args) := buildSearchQuery params
  let offset := offsetOf params.Page params.Limit
  (query ++ pageSuffix params.Limit offset, args)

/-- Nearest integer to the fraction `num / den`, ties to the even one. -/
def roundHalfEven (num den : Nat) : Nat :=
  let m := num / den
  let r := num % den
  if den < 2 * r ∨ (2 * r = den ∧ m % 2 = 1) then m + 1 else m

/-- Position of the leading binary digit of `n`, found by at most `fuel`
halvings. -/
def log2Fuel : Nat → Nat → Nat
  | 0, _ => 0
  | fuel + 1, n => if 2 ≤ n then log2Fuel fuel (n / 2) + 1 else 0

/-- The integer part of the binary logarithm of `n`, and 0 for `n = 0`. -/
def floorLog2 (n : Nat) : Nat := log2Fuel n n

/-- The conversion `float64(n)` of a natural number below `2^64`: the nearest
number with a 53-bit significand, ties to even.  The result is an integer. -/
def f64OfNat (n : Nat) : Nat :=
  if n < 2 ^ 53 then n
  else
    let k := floorLog2 n - 52
    roundHalfEven n (2 ^ k) * 2 ^ k

/-- A non-negative finite floating-point value `m * 2^e`. -/
structure Dyadic where
  m : Nat
  e : Int
  deriving DecidableEq, Repr

/-- Numerator of `a / (b * 2^e)` after clearing the power of two. -/
def scaledNum (a : Nat) (e : Int) : Nat := a * 2 ^ (-e).toNat

/-- Denominator of `a / (b * 2^e)` after clearing the power of two. -/
def scaledDen (b : Nat) (e : Int) : Nat := b * 2 ^ e.toNat

/-- The `float64` quotient `a / b` of two positive integer-valued floats, with
IEEE-754 rounding to nearest, ties to even: the exponent `e` is the one that
puts `a / (b * 2^e)` in `[2^52, 2^53)`, and the significand is that number
rounded to an integer.  Quotients of values between 1 and `2^63` neither
overflow nor fall in the subnormal range. -/
def f64Div (a b : Nat) : Dyadic :=
  if a = 0 then ⟨0, 0⟩
  else
    let e0 : Int := (floorLog2 a : Int) - (floorLog2 b : Int) - 53
    let e : Int := if 2 ^ 53 ≤ scaledNum a e0 / scaledDen b e0 then e0 + 1 else e0
    ⟨roundHalfEven (scaledNum a e) (scaledDen b e), e⟩

/-- The value of `math.Ceil` on a non-negative float, an integer. -/
def Dyadic.ceil (d : Dyadic) : Nat :=
  (d.m * 2 ^ d.e.toNat + 2 ^ (-d.e).toNat - 1) / 2 ^ (-d.e).toNat

/-- The value of `math.Floor` on a non-negative float, an integer. -/
def Dyadic.floor (d : Dyadic) : Nat :=
  d.m * 2 ^ d.e.toNat / 2 ^ (-d.e).toNat

/-- Line 120: `int(math.Ceil(float64(total) / float64(params.Limit)))`.
Both conversions round to the nearest `float64`, so does the division, and
`math.Ceil` is exact.  A negative quotient is the negated quotient of the
magnitudes, and its ceiling the negated floor.  `none` is returned where Go
leaves the conversion to `int` implementation-dependent: division by zero
(an infinity or NaN) and a ceiling outside the `int` range. -/
def totalPagesOf (total limit : Int) : Option Int :=
  if limit = 0 then none
  else
    let q := f64Div (f64OfNat total.natAbs) (f64OfNat limit.natAbs)
    let c : Int := if (decide (total < 0) != decide (limit < 0)) then -(q.floor : Int) else q.ceil
    if -2 ^ 63 ≤ c ∧ c < 2 ^ 63 then some c else none


/-! ## Handlers -/

/-- The struct `models.Property`; the listing date is carried as a timestamp. -/
structure Property where
  ID : Int
  MLSNumber : String
  Address : String
  City : String
  State : String
  ZipCode : String
  Price : Float64
  Bedrooms : Int
  Bathrooms : Float64
  SquareFeet : Int
  LotSize : Float64
  YearBuilt : Int
  PropertyType : String
  Description : String
  PhotoURL : String
  ListingDate : Int
  Status : String
  Latitude : Float64
  Longitude : Float64
  deriving DecidableEq, Repr

/-- The struct `models.PropertyResponse`.  `TotalPages` is `none` where Go leaves the
value of the float-to-int conversion implementation-dependent. -/
structure PropertyResponse where
  Properties : List Property
  Total : Int
  Page : Int
  Limit : Int
  TotalPages : Option Int
  deriving DecidableEq, Repr

/-- A non-nil `error` returned by `database/sql`: the sentinel `sql.ErrNoRows`
or anything else, with its message. -/
inductive DBError where
  | errNoRows : DBError
  | other (msg : String) : DBError
  deriving DecidableEq, Repr

/-- The database behind `h.DB`, as an oracle.
* `queryRowInt q args` is `h.DB.QueryRow(q, args...).Scan(&total)`.
* `queryRows q args` is `h.DB.Query(q, args...)` and the rows it yields; a row
  is `none` when `rows.Scan` fails on it.
* `queryRowProperty q args` is `h.DB.QueryRow(q, args...).Scan(...)` into the
  nineteen fields of a `Property`. -/
structure Database where
  queryRowInt : String → List Value → Except DBError Int
  queryRows : String → List Value → Except DBError (List (Option Property))
  queryRowProperty : String → List Value → Except DBError Property

/-- What a handler writes to the `http.ResponseWriter`. -/
inductive Body where
  | text (s : String) : Body
  | propertyList (r : PropertyResponse) : Body
  | property (p : Property) : Body
  deriving DecidableEq, Repr

/-- Status code and body of a response. -/
structure Response where
  status : Nat
  body : Body
  deriving DecidableEq, Repr

/-- Go `http.Error(w, msg, code)`: the message and a newline as plain text. -/
def httpError (msg : String) (code : Nat) : Response := ⟨code, .text (msg ++ "\n")⟩

/-- The handler `PropertyHandler.GetProperties`.  Returns the response together with the
statements sent to the database, in order. -/
def GetProperties (db : Database) (parseFloat : String → Option Float64)
    (get : String → String) : Response × List (String × List Value) :=
  let params := parseParams parseFloat get
  let (query, args) := buildSearchQuery params
  let countQuery := countQueryOf query
  match db.queryRowInt countQuery args with
  | .error _ => (httpError "Error fetching properties" 500, [(countQuery, args)])
  | .ok total =>
    let offset := offsetOf params.Page params.Limit
    let query := query ++ pageSuffix params.Limit offset
    match db.queryRows query args with
    | .error _ =>
      (httpError "Error fetching properties" 500, [(countQuery, args), (query, args)])
    | .ok rows =>
      let properties := rows.filterMap id
      let totalPages := totalPagesOf total params.Limit
      (⟨200, .propertyList
          { Properties := properties, Total := total, Page := params.Page,
            Limit := params.Limit, TotalPages := totalPages }⟩,
        [(countQuery, args), (query, args)])

/-- The statement of `GetPropertyByID`. -/
def byIDQuery : String :=
  "SELECT id, mls_number, address, city, state, zip_code, price,\n\t          bedrooms, bathrooms, square_feet, lot_size, year_built,\n\t          property_type, description, photo_url, listing_date, status,\n\t          latitude, longitude FROM rets_property WHERE id = ?"

/-- The handler `PropertyHandler.GetPropertyByID`; `id` is `mux.Vars(r)["id"]`. -/
def GetPropertyByID (db : Database) (id : String) : Response :=
  match db.queryRowProperty byIDQuery [.str id] with
  | .error .errNoRows => httpError "Property not found" 404
  | .error (.other _) => httpError "Error fetching property" 500
  | .ok p => ⟨200, .property p⟩

/-! ## Auxiliary predicates -/

/-- The WHERE predicate of the search query: `1=1` and the clauses of the
present filters. -/
def predicateOf (p : PropertySearchParams) : String :=
  "1=1" ++ String.join (((filterTable p).filter (fun f => f.1)).map (fun f => f.2.1))

/-- The patterns `sep` and `t` differ at a position both have, so that `sep` is
a prefix of no extension of `t`. -/
def clash : List Char → List Char → Bool
  | s :: sep, c :: t => s != c || clash sep t
  | _, _ => false

/-- No occurrence of `sep` can start inside `a`, whatever follows `a`. -/
def noMatch (sep : List Char) : List Char → Bool
  | [] => true
  | c :: cs => clash sep (c :: cs) && noMatch sep cs

/-- No occurrence of one of the three patterns of the count-query derivation
can start inside `s`. -/
def inertPiece (s : String) : Bool :=
  noMatch "SELECT *".data s.data && noMatch "ORDER BY".data s.data &&
    noMatch "LIMIT".data s.data

/-- The eight clause texts of `buildSearchQuery`. -/
def clauseTexts : List String :=
  [cityClause, zipClause, minPriceClause, maxPriceClause, bedroomsClause, bathroomsClause,
   propertyTypeClause, keywordClause]

/-- Each numeric or string filter of `q` either equals that of `p` or both are
unset. -/
def unsetEquiv (p q : PropertySearchParams) : Prop :=
  p.City = q.City ∧ p.ZipCode = q.ZipCode ∧
  (p.MinPrice = q.MinPrice ∨ (p.MinPrice.gtZero = false ∧ q.MinPrice.gtZero = false)) ∧
  (p.MaxPrice = q.MaxPrice ∨ (p.MaxPrice.gtZero = false ∧ q.MaxPrice.gtZero = false)) ∧
  (p.Bedrooms = q.Bedrooms ∨ (p.Bedrooms ≤ 0 ∧ q.Bedrooms ≤ 0)) ∧
  (p.Bathrooms = q.Bathrooms ∨ (p.Bathrooms.gtZero = false ∧ q.Bathrooms.gtZero = false)) ∧
  p.PropertyType = q.PropertyType ∧ p.Keyword = q.Keyword

/-- Every filter is unset. -/
def allUnset (p : PropertySearchParams) : Prop :=
  p.City = "" ∧ p.ZipCode = "" ∧ p.MinPrice.gtZero = false ∧ p.MaxPrice.gtZero = false ∧
  p.Bedrooms ≤ 0 ∧ p.Bathrooms.gtZero = false ∧ p.PropertyType = "" ∧ p.Keyword = ""

/-! ## Example inputs -/

/-- The filters of `GET /api/properties?city=Austin&min_price=200000&page=2&limit=10`. -/
def austinParams : PropertySearchParams :=
  { City := "Austin", ZipCode := "", MinPrice := .finite false 200000 0,
    MaxPrice := .finite false 0 0, Bedrooms := 0, Bathrooms := .finite false 0 0,
    PropertyType := "", Keyword := "", Page := 2, Limit := 10 }

/-- Same filters present as in `austinParams`, with a city value that would
alter the statement if it were spliced into the text. -/
def hostileParams : PropertySearchParams :=
  { City := "Austin) OR 1=1 LIMIT 1", ZipCode := "", MinPrice := .finite false 1 (-1),
    MaxPrice := .finite false 0 0, Bedrooms := 0, Bathrooms := .finite false 0 0,
    PropertyType := "", Keyword := "", Page := 1, Limit := 20 }

/-- No filter set: `GET /api/properties`. -/
def emptyParams : PropertySearchParams :=
  { City := "", ZipCode := "", MinPrice := .finite false 0 0,
    MaxPrice := .finite false 0 0, Bedrooms := 0, Bathrooms := .finite false 0 0,
    PropertyType := "", Keyword := "", Page := 1, Limit := 20 }

/-- No filter set either, through other unset values: a negative price, a NaN,
a negative count and minus infinity. -/
def unsetVariantParams : PropertySearchParams :=
  { City := "", ZipCode := "", MinPrice := .finite true 5 0,
    MaxPrice := .nan, Bedrooms := -3, Bathrooms := .inf true,
    PropertyType := "", Keyword := "", Page := 1, Limit := 20 }

/-- The query string `city=Austin&min_price=200000&page=2&limit=10`. -/
def austinRequest (key : String) : String :=
  if key = "city" then "Austin"
  else if key = "min_price" then "200000"
  else if key = "page" then "2"
  else if key = "limit" then "10"
  else ""

/-- A float parser that knows the one numeral of `austinRequest`. -/
def austinParseFloat (s : String) : Option Float64 :=
  if s = "200000" then some (.finite false 200000 0) else none

/-- A database with 25 matching rows whose page is empty and which holds no
listing under any identifier. -/
def sampleDB : Database :=
  { queryRowInt := fun _ _ => .ok 25
    queryRows := fun _ _ => .ok []
    queryRowProperty := fun _ _ => .error .errNoRows }

/-! ## Lemmas on the query builder -/

theorem placeholders_append (a b : String) :
    placeholders (a ++ b) = placeholders a + placeholders b := by
  simp [placeholders, String.data_append, List.count_append]

theorem foldl_append_init (l : List String) (init : String) :
    List.foldl (fun r s => r ++ s) init l = init ++ String.join l := by
  induction l generalizing init with
  | nil => simp [String.join]
  | cons a l ih =>
    simp only [List.foldl_cons, String.join]
    rw [ih, ih ("" ++ a)]
    simp [String.append_assoc]

theorem join_cons (a : String) (l : List String) :
    String.join (a :: l) = a ++ String.join l := by
  simp only [String.join, List.foldl_cons]
  rw [foldl_append_init]
  simp [String.join]

theorem foldl_addFilter (table : List (Bool × String × List Value))
    (acc : String × List Value) :
    List.foldl (fun acc f => addFilter f.1 f.2.1 f.2.2 acc) acc table
      = (acc.1 ++ String.join ((table.filter (fun f => f.1)).map (fun f => f.2.1)),
         acc.2 ++ ((table.filter (fun f => f.1)).map (fun f => f.2.2)).flatten) := by
  induction table generalizing acc with
  | nil => simp [String.join]
  | cons f t ih =>
    rw [List.foldl_cons, ih]
    rcases f with ⟨c, cl, v⟩
    cases c <;> simp [addFilter, join_cons, String.append_assoc]

theorem build_eq_foldl (p : PropertySearchParams) :
    buildSearchQuery p
      = List.foldl (fun acc f => addFilter f.1 f.2.1 f.2.2 acc) (baseQuery, [])
          (filterTable p) :=
  rfl

theorem build_eq_spec (p : PropertySearchParams) :
    buildSearchQuery p = (specQuery p, specArgs p) := by
  rw [build_eq_foldl, foldl_addFilter]
  simp [specQuery, specArgs]

theorem addFilter_placeholders (c : Bool) (clause : String) (vals : List Value)
    (acc : String × List Value) (hc : placeholders clause = vals.length)
    (h : placeholders acc.1 = acc.2.length) :
    placeholders (addFilter c clause vals acc).1 = (addFilter c clause vals acc).2.length := by
  unfold addFilter
  split
  · simp [placeholders_append, hc, h]
  · exact h

theorem baseQuery_split : baseQuery = selectHead ++ "WHERE 1=1" := by decide!

/-! ## Lemmas on the count-query derivation -/

theorem clash_isPrefixOf (sep t b : List Char) (h : clash sep t = true) :
    sep.isPrefixOf (t ++ b) = false := by
  induction sep generalizing t with
  | nil => simp [clash] at h
  | cons s sep ih =>
    cases t with
    | nil => simp [clash] at h
    | cons c t =>
      simp only [clash, Bool.or_eq_true, bne_iff_ne, ne_eq] at h
      simp only [List.cons_append, List.isPrefixOf, Bool.and_eq_false_imp, beq_iff_eq]
      intro hsc
      rcases h with h | h
      · exact absurd hsc h
      · exact ih t h

theorem splitHead_append (sep a b : List Char) (h : noMatch sep a = true) :
    splitHead (a ++ b) sep = a ++ splitHead b sep := by
  induction a with
  | nil => rfl
  | cons c cs ih =>
    simp only [noMatch, Bool.and_eq_true] at h
    have h1 := clash_isPrefixOf sep (c :: cs) b h.1
    simp only [List.cons_append] at h1 ⊢
    simp [splitHead, h1, ih h.2]

theorem replaceFirst_append (old new a b : List Char) (h : noMatch old a = true) :
    replaceFirst (a ++ b) old new = a ++ replaceFirst b old new := by
  induction a with
  | nil => rfl
  | cons c cs ih =>
    simp only [noMatch, Bool.and_eq_true] at h
    have h1 := clash_isPrefixOf old (c :: cs) b h.1
    simp only [List.cons_append] at h1 ⊢
    simp [replaceFirst, h1, ih h.2]

theorem splitHead_join (sep : List Char) (L : List String)
    (h : ∀ s ∈ L, noMatch sep s.data = true) :
    splitHead (String.join L).data sep = (String.join L).data := by
  induction L with
  | nil => rfl
  | cons a L ih =>
    rw [join_cons, String.data_append, splitHead_append _ _ _ (h a (List.mem_cons_self a L)),
      ih (fun s hs => h s (List.mem_cons_of_mem a hs))]

theorem replaceFirst_join (old new : List Char) (hold : old.isEmpty = false) (L : List String)
    (h : ∀ s ∈ L, noMatch old s.data = true) :
    replaceFirst (String.join L).data old new = (String.join L).data := by
  induction L with
  | nil => simp [String.join, replaceFirst, hold]
  | cons a L ih =>
    rw [join_cons, String.data_append,
      replaceFirst_append _ _ _ _ (h a (List.mem_cons_self a L)),
      ih (fun s hs => h s (List.mem_cons_of_mem a hs))]

theorem inert_pieces : (baseQuery :: clauseTexts).all inertPiece = true := by decide!

theorem countQueryOf_join (L : List String) (h : ∀ s ∈ L, inertPiece s = true) :
    countQueryOf (String.join L) = String.join L := by
  have h1 : ∀ s ∈ L, noMatch "SELECT *".data s.data = true := fun s hs => by
    have := h s hs
    simp only [inertPiece, Bool.and_eq_true] at this
    exact this.1.1
  have h2 : ∀ s ∈ L, noMatch "ORDER BY".data s.data = true := fun s hs => by
    have := h s hs
    simp only [inertPiece, Bool.and_eq_true] at this
    exact this.1.2
  have h3 : ∀ s ∈ L, noMatch "LIMIT".data s.data = true := fun s hs => by
    have := h s hs
    simp only [inertPiece, Bool.and_eq_true] at this
    exact this.2
  simp only [countQueryOf]
  rw [replaceFirst_join _ _ (by decide) L h1, splitHead_join _ L h2, splitHead_join _ L h3]

theorem present_clauses_inert (p : PropertySearchParams) :
    ∀ s ∈ baseQuery :: ((filterTable p).filter (fun f => f.1)).map (fun f => f.2.1),
      inertPiece s = true := by
  have hall := inert_pieces
  rw [List.all_eq_true] at hall
  intro s hs
  apply hall
  rcases List.mem_cons.1 hs with h | h
  · exact h ▸ List.mem_cons_self _ _
  · apply List.mem_cons_of_mem
    rcases List.mem_map.1 h with ⟨f, hf, rfl⟩
    have hf' := (List.mem_filter.1 hf).1
    have : f.2.1 ∈ (filterTable p).map (fun f => f.2.1) := List.mem_map_of_mem _ hf'
    exact this

theorem query_eq_join (p : PropertySearchParams) :
    (buildSearchQuery p).1
      = String.join (baseQuery :: ((filterTable p).filter (fun f => f.1)).map (fun f => f.2.1)) := by
  rw [build_eq_spec, join_cons]
  rfl

theorem take_data_append (a b : String) (n : Nat) (h : n ≤ a.data.length) :
    (a ++ b).data.take n = a.data.take n := by
  rw [String.data_append, List.take_append_of_le_length h]

theorem bne_empty_congr (a b : String) (h : a = "" ↔ b = "") : (a != "") = (b != "") :=
  Bool.eq_iff_iff.2 (by simp only [bne_iff_ne, ne_eq, h])

/-! ## The query builder: claims C1 to C5 -/

/-- C1 (as the code behaves): for every parameter value the count query that
`GetProperties` derives is the search query itself, unchanged: it still
selects the nineteen columns, so it differs from `SELECT COUNT(*) FROM
rets_property WHERE <predicate>`, although the search query does end in that
predicate; and it is the first statement `GetProperties` sends to the
database, with the builder's arguments. -/
theorem count_query_is_search_query (p : PropertySearchParams) :
    countQueryOf (buildSearchQuery p).1 = (buildSearchQuery p).1 ∧
    (buildSearchQuery p).1 = selectHead ++ "WHERE " ++ predicateOf p ∧
    countQueryOf (buildSearchQuery p).1 ≠ specCountQuery (predicateOf p) ∧
    ∀ (db : Database) (parseFloat : String → Option Float64) (get : String → String),
      (GetProperties db parseFloat get).2.head?
        = some (buildSearchQuery (parseParams parseFloat get)) := by
  have hq : countQueryOf (buildSearchQuery p).1 = (buildSearchQuery p).1 := by
    rw [query_eq_join]
    exact countQueryOf_join _ (present_clauses_inert p)
  have hsplit : (buildSearchQuery p).1 = selectHead ++ "WHERE " ++ predicateOf p := by
    rw [build_eq_spec]
    simp only [specQuery, predicateOf, baseQuery_split, String.append_assoc]
    rfl
  refine ⟨hq, hsplit, ?_, ?_⟩
  · rw [hq, build_eq_spec]
    intro h
    have h8 := congrArg (fun t : String => t.data.take 8) h
    simp only [specQuery, specCountQuery] at h8
    rw [take_data_append _ _ 8 (by decide!), take_data_append _ _ 8 (by decide!)] at h8
    revert h8
    decide!
  · intro db parseFloat get
    have hq' := fun q : PropertySearchParams => show countQueryOf (buildSearchQuery q).1
        = (buildSearchQuery q).1 by
      rw [query_eq_join]
      exact countQueryOf_join _ (present_clauses_inert q)
    simp only [GetProperties]
    rw [hq']
    cases db.queryRowInt (buildSearchQuery (parseParams parseFloat get)).1
        (buildSearchQuery (parseParams parseFloat get)).2 with
    | error e => rfl
    | ok total =>
      cases db.queryRows _ _ <;> rfl

/-- C2: for every parameter value, the query text returned by
`buildSearchQuery` holds exactly as many `?` placeholders as the returned
argument list has entries. -/
theorem placeholders_eq_args_length (p : PropertySearchParams) :
    placeholders (buildSearchQuery p).1 = (buildSearchQuery p).2.length := by
  unfold buildSearchQuery
  iterate 8 (apply addFilter_placeholders; rotate_left)
  all_goals (simp only [List.length_cons, List.length_nil]; decide!)

/-- C3: `buildSearchQuery` returns the base query, which ends in `WHERE 1=1`,
followed by the clauses of exactly the present filters in the order city, zip
code, min price, max price, min bedrooms, min bathrooms, property type,
keyword, each clause starting with ` AND `, and the argument list concatenates
their bound values in that order, a present keyword `k` binding three copies
of `"%" ++ k ++ "%"`. -/
theorem build_query_clause_order (p : PropertySearchParams) :
    buildSearchQuery p = (specQuery p, specArgs p) ∧
    baseQuery = selectHead ++ "WHERE 1=1" ∧
    (filterTable p).map (fun f => f.2.1) = clauseTexts ∧
    clauseTexts.all (fun s => " AND ".data.isPrefixOf s.data) = true :=
  ⟨build_eq_spec p, baseQuery_split, rfl, by decide⟩

/-- C4: two parameter values with the same filters present yield the same
query text, whatever the filter values are. -/
theorem query_text_independent_of_values (p q : PropertySearchParams)
    (h : samePresence p q) : (buildSearchQuery p).1 = (buildSearchQuery q).1 := by
  obtain ⟨h1, h2, h3, h4, h5, h6, h7, h8⟩ := h
  have e1 : (p.City != "") = (q.City != "") := bne_empty_congr _ _ h1
  have e2 : (p.ZipCode != "") = (q.ZipCode != "") := bne_empty_congr _ _ h2
  have e5 : decide (p.Bedrooms > 0) = decide (q.Bedrooms > 0) := decide_eq_decide.2 h5
  have e7 : (p.PropertyType != "") = (q.PropertyType != "") := bne_empty_congr _ _ h7
  have e8 : (p.Keyword != "") = (q.Keyword != "") := bne_empty_congr _ _ h8
  rw [build_eq_spec, build_eq_spec]
  simp only [specQuery, filterTable, e1, e2, h3, h4, e5, h6, e7, e8]
  cases (q.City != "") <;> cases (q.ZipCode != "") <;> cases q.MinPrice.gtZero <;>
    cases q.MaxPrice.gtZero <;> cases (decide (q.Bedrooms > 0)) <;>
    cases q.Bathrooms.gtZero <;> cases (q.PropertyType != "") <;>
    cases (q.Keyword != "") <;> rfl

theorem addFilter_false (clause : String) (vals : List Value) (acc : String × List Value) :
    addFilter false clause vals acc = acc := rfl

theorem decide_pos_false (i : Int) (h : i ≤ 0) : decide (i > 0) = false :=
  decide_eq_false (not_lt.2 h)

theorem addFilter_float_unset (a b : Float64) (clause : String) (acc : String × List Value)
    (h : a = b ∨ (a.gtZero = false ∧ b.gtZero = false)) :
    addFilter a.gtZero clause [.float a] acc = addFilter b.gtZero clause [.float b] acc := by
  rcases h with h | ⟨ha, hb⟩
  · rw [h]
  · rw [ha, hb, addFilter_false, addFilter_false]

theorem addFilter_int_unset (a b : Int) (clause : String) (acc : String × List Value)
    (h : a = b ∨ (a ≤ 0 ∧ b ≤ 0)) :
    addFilter (decide (a > 0)) clause [.int a] acc
      = addFilter (decide (b > 0)) clause [.int b] acc := by
  rcases h with h | ⟨ha, hb⟩
  · rw [h]
  · rw [decide_pos_false a ha, decide_pos_false b hb, addFilter_false, addFilter_false]

/-- C5: replacing unset filters by other unset values changes neither the query
text nor the argument list, and with every filter unset the result is the base
query, ending in `WHERE 1=1`, with no argument. -/
theorem unset_filter_no_constraint (p q : PropertySearchParams) (h : unsetEquiv p q) :
    buildSearchQuery p = buildSearchQuery q ∧
    (allUnset p → buildSearchQuery p = (baseQuery, []) ∧
      baseQuery = selectHead ++ "WHERE 1=1") := by
  constructor
  · obtain ⟨h1, h2, h3, h4, h5, h6, h7, h8⟩ := h
    unfold buildSearchQuery
    simp only [h1, h2, h7, h8]
    rw [addFilter_float_unset p.MinPrice q.MinPrice _ _ h3,
      addFilter_float_unset p.MaxPrice q.MaxPrice _ _ h4,
      addFilter_int_unset p.Bedrooms q.Bedrooms _ _ h5,
      addFilter_float_unset p.Bathrooms q.Bathrooms _ _ h6]
  · rintro ⟨h1, h2, h3, h4, h5, h6, h7, h8⟩
    refine ⟨?_, baseQuery_split⟩
    unfold buildSearchQuery
    simp only [h1, h2, h3, h4, decide_pos_false _ h5, h6, h7, h8]
    rfl

/-- Witness for C4: a city name and a hostile city value, with different price
bounds, give the same query text. -/
theorem query_text_independent_witness :
    samePresence austinParams hostileParams ∧
    (buildSearchQuery austinParams).1 = (buildSearchQuery hostileParams).1 :=
  ⟨by simp [samePresence, austinParams, hostileParams, Float64.gtZero],
   query_text_independent_of_values austinParams hostileParams
    (by simp [samePresence, austinParams, hostileParams, Float64.gtZero])⟩

/-- Witness for C5: unset values of every kind give the result of the empty
filter set, which is the base query with no argument. -/
theorem unset_filter_witness :
    unsetEquiv unsetVariantParams emptyParams ∧ allUnset unsetVariantParams ∧
    buildSearchQuery unsetVariantParams = buildSearchQuery emptyParams ∧
    buildSearchQuery unsetVariantParams = (baseQuery, []) :=
  have h : unsetEquiv unsetVariantParams emptyParams := by
    simp [unsetEquiv, unsetVariantParams, emptyParams, Float64.gtZero]
  have h0 : allUnset unsetVariantParams := by
    simp [allUnset, unsetVariantParams, Float64.gtZero]
  ⟨h, h0, (unset_filter_no_constraint _ _ h).1, ((unset_filter_no_constraint _ _ h).2 h0).1⟩

/-! ## Request parsing: claim C6 -/

theorem Atoi_empty : Atoi "" = none := rfl

theorem parseLimit_eq (raw : String) :
    parseLimit raw
      = (match Atoi raw with
        | some l => if 1 ≤ l ∧ l ≤ 100 then l else 20
        | none => 20) := by
  unfold parseLimit
  by_cases h : raw = ""
  · subst h
    simp [Atoi_empty]
  · have hb : (raw != "") = true := by simp [h]
    rw [if_pos hb]
    cases Atoi raw with
    | none => rfl
    | some l =>
      have : (l > 0 ∧ l ≤ 100) ↔ (1 ≤ l ∧ l ≤ 100) := by omega
      simp only [this]

theorem parsePage_eq (raw : String) :
    parsePage raw
      = (match Atoi raw with
        | some p => if 1 ≤ p then p else 1
        | none => 1) := by
  unfold parsePage
  by_cases h : raw = ""
  · subst h
    simp [Atoi_empty]
  · have hb : (raw != "") = true := by simp [h]
    rw [if_pos hb]
    cases Atoi raw with
    | none => rfl
    | some p =>
      have : (p > 0) ↔ (1 ≤ p) := by omega
      simp only [this]

theorem parseLimit_bounds (raw : String) : 1 ≤ parseLimit raw ∧ parseLimit raw ≤ 100 := by
  rw [parseLimit_eq]
  cases Atoi raw with
  | none => decide
  | some l =>
    by_cases h : 1 ≤ l ∧ l ≤ 100
    · simp [h]
    · simp [h]

theorem parsePage_bounds (raw : String) : 1 ≤ parsePage raw := by
  rw [parsePage_eq]
  cases Atoi raw with
  | none => decide
  | some p =>
    by_cases h : 1 ≤ p
    · simp [h]
    · simp [h]

/-- C6: the parsed limit is the integer given when `strconv.Atoi` accepts the
text and the value lies in `[1, 100]`, and the default 20 otherwise (missing,
malformed, zero, negative, above 100; never clamped); the parsed page is the
integer given when it is at least 1, and the default 1 otherwise; so
`1 ≤ Limit ≤ 100` and `Page ≥ 1` hold after parsing. -/
theorem parse_page_limit (parseFloat : String → Option Float64) (get : String → String) :
    (parseParams parseFloat get).Limit
      = (match Atoi (get "limit") with
        | some l => if 1 ≤ l ∧ l ≤ 100 then l else 20
        | none => 20) ∧
    (parseParams parseFloat get).Page
      = (match Atoi (get "page") with
        | some p => if 1 ≤ p then p else 1
        | none => 1) ∧
    1 ≤ (parseParams parseFloat get).Limit ∧ (parseParams parseFloat get).Limit ≤ 100 ∧
    1 ≤ (parseParams parseFloat get).Page ∧
    parseLimit "150" = 20 ∧ parseLimit "101" = 20 ∧ parseLimit "0" = 20 ∧
    parseLimit "-5" = 20 ∧ parseLimit "ten" = 20 ∧ parseLimit "" = 20 ∧
    parseLimit "1" = 1 ∧ parseLimit "100" = 100 ∧ parseLimit "10" = 10 ∧
    parsePage "0" = 1 ∧ parsePage "-3" = 1 ∧ parsePage "2x" = 1 ∧ parsePage "" = 1 ∧
    parsePage "1" = 1 ∧ parsePage "3" = 3 :=
  ⟨parseLimit_eq _, parsePage_eq _, (parseLimit_bounds _).1, (parseLimit_bounds _).2,
   parsePage_bounds _, by decide, by decide, by decide, by decide, by decide, by decide,
   by decide, by decide, by decide, by decide, by decide, by decide, by decide, by decide,
   by decide⟩

/-! ## Pagination: claims C8 and C9 -/

theorem wrapInt64_of_range (x : Int) (h0 : 0 ≤ x) (h1 : x < 2 ^ 63) : wrapInt64 x = x := by
  unfold wrapInt64
  omega

/-- C8 (amended): for `page ≥ 1` and `1 ≤ limit ≤ 100` whose product
`(page - 1) * limit` fits the 64-bit `int`, the offset computed by
`GetProperties` is the integer `(page - 1) * limit`, and is non-negative. -/
theorem offset_exact (page limit : Int) (hp : 1 ≤ page) (hl : 1 ≤ limit) (hl' : limit ≤ 100)
    (hfit : (page - 1) * limit < 2 ^ 63) :
    offsetOf page limit = (page - 1) * limit ∧ 0 ≤ offsetOf page limit := by
  have h0 : 0 ≤ page - 1 := by omega
  have hprod : 0 ≤ (page - 1) * limit := Int.mul_nonneg h0 (by omega)
  have hle : page - 1 ≤ (page - 1) * limit := by nlinarith
  have h1 : wrapInt64 (page - 1) = page - 1 := wrapInt64_of_range _ h0 (by omega)
  have h2 : offsetOf page limit = (page - 1) * limit := by
    unfold offsetOf
    rw [h1, wrapInt64_of_range _ hprod hfit]
  exact ⟨h2, h2 ▸ hprod⟩

/-- Witness for C8: page 3 with limit 20 gives offset 40, page 2 with limit 10
gives offset 10. -/
theorem offset_exact_witness :
    (offsetOf 3 20 = (3 - 1) * 20 ∧ 0 ≤ offsetOf 3 20) ∧
    (offsetOf 2 10 = (2 - 1) * 10 ∧ 0 ≤ offsetOf 2 10) ∧
    offsetOf 3 20 = 40 ∧ offsetOf 2 10 = 10 :=
  ⟨offset_exact 3 20 (by decide) (by decide) (by decide) (by decide),
   offset_exact 2 10 (by decide) (by decide) (by decide) (by decide),
   by decide, by decide⟩

/-- Counterexample to C8 as stated: the parser accepts the page
`9223372036854775807` and the limit `20`, and the offset computed for them is
`-40`, neither `(page - 1) * limit` nor non-negative. -/
theorem offset_overflow_counterexample :
    parsePage "9223372036854775807" = 9223372036854775807 ∧ parseLimit "20" = 20 ∧
    offsetOf 9223372036854775807 20 = -40 ∧
    offsetOf 9223372036854775807 20 ≠ (9223372036854775807 - 1) * 20 ∧
    ¬ (0 ≤ offsetOf 9223372036854775807 20) := by
  decide

/-- C9: once the count lookup has succeeded, the second statement
`GetProperties` runs is the text returned by `buildSearchQuery` followed by
` ORDER BY listing_date DESC LIMIT <Limit> OFFSET <offset>` in decimal, with
the argument list of `buildSearchQuery`; the same holds of the paged query of
any parameter value, and for city Austin, minimum price 200000, page 2 and
limit 10 the predicate, arguments and suffix are the ones of the scenario. -/
theorem paged_query_shape (db : Database) (parseFloat : String → Option Float64)
    (get : String → String) (total : Int)
    (h : db.queryRowInt (countQueryOf (buildSearchQuery (parseParams parseFloat get)).1)
      (buildSearchQuery (parseParams parseFloat get)).2 = .ok total) :
    (GetProperties db parseFloat get).2
      = [ (countQueryOf (buildSearchQuery (parseParams parseFloat get)).1,
            (buildSearchQuery (parseParams parseFloat get)).2),
          ((buildSearchQuery (parseParams parseFloat get)).1
              ++ " ORDER BY listing_date DESC LIMIT "
              ++ toString (parseParams parseFloat get).Limit ++ " OFFSET "
              ++ toString (offsetOf (parseParams parseFloat get).Page
                    (parseParams parseFloat get).Limit),
            (buildSearchQuery (parseParams parseFloat get)).2) ] ∧
    (∀ p : PropertySearchParams,
      pagedQuery p
        = ((buildSearchQuery p).1 ++ " ORDER BY listing_date DESC LIMIT "
              ++ toString p.Limit ++ " OFFSET " ++ toString (offsetOf p.Page p.Limit),
            (buildSearchQuery p).2)) ∧
    pagedQuery austinParams
      = (selectHead ++ "WHERE " ++ "1=1 AND LOWER(city) = LOWER(?) AND price >= ?"
            ++ " ORDER BY listing_date DESC LIMIT 10 OFFSET 10",
          [.str "Austin", .float (.finite false 200000 0)]) := by
  refine ⟨?_, ?_, ?_⟩
  · simp only [GetProperties, h]
    cases db.queryRows _ _ <;>
      simp [pageSuffix, String.append_assoc]
  · intro p
    simp [pagedQuery, pageSuffix, String.append_assoc]
  · decide!

/-- Witness for C9: the request `city=Austin&min_price=200000&page=2&limit=10`
against a database whose count succeeds. -/
theorem paged_query_witness :
    parseParams austinParseFloat austinRequest = austinParams ∧
    (GetProperties sampleDB austinParseFloat austinRequest).2
      = [ (countQueryOf (buildSearchQuery (parseParams austinParseFloat austinRequest)).1,
            (buildSearchQuery (parseParams austinParseFloat austinRequest)).2),
          ((buildSearchQuery (parseParams austinParseFloat austinRequest)).1
              ++ " ORDER BY listing_date DESC LIMIT "
              ++ toString (parseParams austinParseFloat austinRequest).Limit ++ " OFFSET "
              ++ toString (offsetOf (parseParams austinParseFloat austinRequest).Page
                    (parseParams austinParseFloat austinRequest).Limit),
            (buildSearchQuery (parseParams austinParseFloat austinRequest)).2) ] :=
  ⟨by decide, (paged_query_shape sampleDB austinParseFloat austinRequest 25 rfl).1⟩

/-! ## Lookup by identifier: claim C10 -/

/-- C10: `GetPropertyByID` answers 404 exactly when the lookup reports no row,
500 exactly when it fails with another error, and 200 with the listing
otherwise; the two failure bodies are fixed texts, whatever the error says. -/
theorem get_by_id_status (db : Database) (id : String) :
    ((GetPropertyByID db id).status = 404
      ↔ db.queryRowProperty byIDQuery [.str id] = .error .errNoRows) ∧
    ((GetPropertyByID db id).status = 500
      ↔ ∃ msg, db.queryRowProperty byIDQuery [.str id] = .error (.other msg)) ∧
    ((GetPropertyByID db id).status = 200
      ↔ ∃ p, db.queryRowProperty byIDQuery [.str id] = .ok p) ∧
    (∀ p, db.queryRowProperty byIDQuery [.str id] = .ok p
      → GetPropertyByID db id = ⟨200, .property p⟩) ∧
    (db.queryRowProperty byIDQuery [.str id] = .error .errNoRows
      → GetPropertyByID db id = ⟨404, .text "Property not found\n"⟩) ∧
    (∀ msg, db.queryRowProperty byIDQuery [.str id] = .error (.other msg)
      → GetPropertyByID db id = ⟨500, .text "Error fetching property\n"⟩) := by
  unfold GetPropertyByID
  cases hres : db.queryRowProperty byIDQuery [.str id] with
  | error e =>
    cases e with
    | errNoRows => simp [httpError]
    | other msg => simp [httpError]
  | ok p => simp

/-! ## Total pages: claim C7 -/

theorem log2Fuel_eq (fuel n : Nat) (h : n ≤ fuel) : log2Fuel fuel n = Nat.log2 n := by
  induction fuel generalizing n with
  | zero =>
    have : n = 0 := by omega
    subst this
    rw [Nat.log2_zero]
    rfl
  | succ fuel ih =>
    rw [log2Fuel, Nat.log2]
    by_cases h2 : 2 ≤ n
    · rw [if_pos h2, if_pos h2, ih (n / 2) (by omega)]
    · rw [if_neg h2, if_neg h2]

theorem floorLog2_eq (n : Nat) : floorLog2 n = Nat.log2 n := log2Fuel_eq n n (Nat.le_refl n)

theorem ceilDiv_bounds (A B : Nat) (hB : 0 < B) :
    A ≤ (A + B - 1) / B * B ∧ (A + B - 1) / B * B < A + B := by
  have h1 := Nat.div_add_mod (A + B - 1) B
  have h2 := Nat.mod_lt (A + B - 1) hB
  have h3 : B * ((A + B - 1) / B) = (A + B - 1) / B * B := Nat.mul_comm _ _
  constructor <;> omega

theorem roundHalfEven_cases (num den : Nat) :
    (roundHalfEven num den = num / den ∧ ¬ den < 2 * (num % den)) ∨
    (roundHalfEven num den = num / den + 1 ∧ den ≤ 2 * (num % den)) := by
  unfold roundHalfEven
  simp only
  split
  · rename_i h
    right
    exact ⟨rfl, by omega⟩
  · rename_i h
    left
    exact ⟨rfl, fun h' => h (Or.inl h')⟩

theorem ceil_roundHalfEven (A B t : Nat) (hA : 0 < A) (hB : 0 < B) (ht0 : 0 < t)
    (ht : B < 2 * t ∨ A * t % B = 0) :
    (roundHalfEven (A * t) B + t - 1) / t = (A + B - 1) / B := by
  obtain ⟨hk1, hk2⟩ := ceilDiv_bounds A B hB
  generalize (A + B - 1) / B = k at hk1 hk2 ⊢
  have hdm := Nat.div_add_mod (A * t) B
  have hr := Nat.mod_lt (A * t) hB
  generalize hm : A * t / B = m at hdm
  generalize hrr : A * t % B = r at hdm hr ht
  -- k ≥ 1
  have hk0 : 0 < k := by
    rcases Nat.eq_zero_or_pos k with h | h
    · subst h; omega
    · exact h
  obtain ⟨j, rfl⟩ : ∃ j, k = j + 1 := ⟨k - 1, by omega⟩
  -- products
  have e1 : A * t ≤ (j + 1) * B * t := Nat.mul_le_mul_right t hk1
  have e2 : j * B * t + t ≤ A * t := by
    have : j * B + 1 ≤ A := by
      have : (j + 1) * B = j * B + B := by ring
      omega
    calc j * B * t + t = (j * B + 1) * t := by ring
      _ ≤ A * t := Nat.mul_le_mul_right t this
  have e3 : (j + 1) * B * t = B * ((j + 1) * t) := by ring
  have e4 : j * B * t = B * (j * t) := by ring
  -- m ≤ (j+1) t
  have hmu : m ≤ (j + 1) * t := by
    have : B * m ≤ B * ((j + 1) * t) := by omega
    exact Nat.le_of_mul_le_mul_left this hB
  -- j t ≤ m
  have hml : j * t ≤ m := by
    have : B * (j * t) < B * (m + 1) := by
      have : B * (m + 1) = B * m + B := by ring
      omega
    have := Nat.lt_of_mul_lt_mul_left this
    omega
  have key : j * t + 1 ≤ roundHalfEven (A * t) B ∧ roundHalfEven (A * t) B ≤ (j + 1) * t := by
    rcases roundHalfEven_cases (A * t) B with ⟨hv, hc⟩ | ⟨hv, hc⟩
    · rw [hv, hm]
      rw [hrr] at hc
      refine ⟨?_, hmu⟩
      by_contra hcon
      have hmeq : m = j * t := by omega
      subst hmeq
      omega
    · rw [hv, hm]
      rw [hrr] at hc
      refine ⟨by omega, ?_⟩
      by_contra hcon
      have hmeq : m = (j + 1) * t := by omega
      subst hmeq
      omega
  obtain ⟨k1, k2⟩ := key
  generalize roundHalfEven (A * t) B = m' at k1 k2
  apply Nat.div_eq_of_lt_le
  · have : (j + 1) * t = j * t + t := by ring
    omega
  · have : (j + 1 + 1) * t = j * t + t + t := by ring
    have : (j + 1) * t = j * t + t := by ring
    omega


theorem ceil_of_exp (a b : Nat) (e : Int) (ha : 0 < a) (hb : 0 < b) (he : e ≤ 0)
    (ht : b < 2 * 2 ^ (-e).toNat ∨ a * 2 ^ (-e).toNat % b = 0) :
    Dyadic.ceil ⟨roundHalfEven (scaledNum a e) (scaledDen b e), e⟩ = (a + b - 1) / b := by
  have h0 : e.toNat = 0 := by omega
  simp only [Dyadic.ceil, scaledNum, scaledDen, h0, pow_zero, Nat.mul_one]
  exact ceil_roundHalfEven a b _ ha hb (Nat.two_pow_pos _) ht

theorem lt_two_mul_pow (b la n : Nat) (hla : la < 53) (hn : n = 52 + b.log2 - la ∨ n = 53 + b.log2 - la) :
    b < 2 * 2 ^ n := by
  have hlb : b < 2 ^ (b.log2 + 1) := Nat.lt_log2_self
  have hle : b.log2 + 1 ≤ n + 1 := by omega
  have := Nat.pow_le_pow_right (show 0 < 2 by decide) hle
  have h2 : 2 ^ (n + 1) = 2 * 2 ^ n := by ring
  omega

theorem f64Div_ceil (a b : Nat) (ha : a < 2 ^ 53) (hb : 0 < b) :
    (f64Div a b).ceil = (a + b - 1) / b := by
  by_cases h0 : a = 0
  · subst h0
    have : (0 + b - 1) / b = 0 := Nat.div_eq_of_lt (by omega)
    rw [this]
    simp [f64Div, Dyadic.ceil]
  · have hla : a.log2 < 53 := (Nat.log2_lt h0).2 ha
    unfold f64Div
    rw [if_neg h0, floorLog2_eq, floorLog2_eq]
    simp only
    split
    · apply ceil_of_exp a b _ (by omega) hb (by omega)
      left
      apply lt_two_mul_pow b a.log2 _ hla
      left
      omega
    · apply ceil_of_exp a b _ (by omega) hb (by omega)
      left
      apply lt_two_mul_pow b a.log2 _ hla
      right
      omega

theorem f64OfNat_small (n : Nat) (h : n < 2 ^ 53) : f64OfNat n = n := by
  unfold f64OfNat
  rw [if_pos h]

theorem ceilDiv_le_self (A B : Nat) (hB : 0 < B) : (A + B - 1) / B ≤ A := by
  obtain ⟨_, h2⟩ := ceilDiv_bounds A B hB
  generalize (A + B - 1) / B = k at h2 ⊢
  by_contra hcon
  have h3 : (A + 1) * B ≤ k * B := Nat.mul_le_mul_right B (by omega)
  have h4 : A ≤ A * B := Nat.le_mul_of_pos_right A hB
  have h5 : (A + 1) * B = A * B + B := by ring
  omega

theorem f64Div_ceil_pow53 (b : Nat) (hb : 0 < b) :
    (f64Div (2 ^ 53) b).ceil = (2 ^ 53 + b - 1) / b := by
  have hb0 : b ≠ 0 := by omega
  have hlo : 2 ^ b.log2 ≤ b := Nat.log2_self_le hb0
  have hhi : b < 2 ^ (b.log2 + 1) := Nat.lt_log2_self
  have hpow : (2 : Nat) ^ (b.log2 + 1) = 2 * 2 ^ b.log2 := by ring
  unfold f64Div
  rw [if_neg (by decide), floorLog2_eq, floorLog2_eq, Nat.log2_two_pow]
  have he0 : ((53 : Nat) : Int) - (b.log2 : Int) - 53 = -(b.log2 : Int) := by omega
  simp only [he0]
  split
  · rename_i hc
    -- the quotient reaches 2^53 only when b is a power of two
    have hn : (-(-(b.log2 : Int))).toNat = b.log2 := by omega
    have hz : (-(b.log2 : Int)).toNat = 0 := by omega
    simp only [scaledNum, scaledDen, hn, hz, pow_zero, Nat.mul_one] at hc
    have hmul : 2 ^ 53 * b ≤ 2 ^ 53 * 2 ^ b.log2 := (Nat.le_div_iff_mul_le hb).1 hc
    have hble : b ≤ 2 ^ b.log2 := Nat.le_of_mul_le_mul_left hmul (by decide)
    have hbeq : b = 2 ^ b.log2 := Nat.le_antisymm hble hlo
    rcases Nat.eq_zero_or_pos b.log2 with hl | hl
    · rw [hl] at hbeq ⊢
      subst hbeq
      decide!
    · apply ceil_of_exp _ b _ (by decide) hb (by omega)
      right
      have hn' : (-(-(b.log2 : Int) + 1)).toNat = b.log2 - 1 := by omega
      rw [hn']
      have h52 : (2 : Nat) ^ 53 * 2 ^ (b.log2 - 1) = 2 ^ 52 * 2 ^ b.log2 := by
        have : (2 : Nat) ^ b.log2 = 2 * 2 ^ (b.log2 - 1) := by
          rw [← pow_succ']
          congr 1
          omega
        rw [this]
        ring
      rw [h52]
      have hdvd : b ∣ 2 ^ 52 * 2 ^ b.log2 := ⟨2 ^ 52, by rw [← hbeq]; ring⟩
      exact Nat.mod_eq_zero_of_dvd hdvd
  · apply ceil_of_exp _ b _ (by decide) hb (by omega)
    left
    have hn : (-(-(b.log2 : Int))).toNat = b.log2 := by omega
    rw [hn]
    omega

theorem f64Div_ceil_le (a b : Nat) (ha : a ≤ 2 ^ 53) (hb : 0 < b) :
    (f64Div a b).ceil = (a + b - 1) / b := by
  rcases Nat.lt_or_ge a (2 ^ 53) with h | h
  · exact f64Div_ceil a b h hb
  · have : a = 2 ^ 53 := Nat.le_antisymm ha h
    subst this
    exact f64Div_ceil_pow53 b hb

theorem f64OfNat_le (n : Nat) (h : n ≤ 2 ^ 53) : f64OfNat n = n := by
  rcases Nat.lt_or_ge n (2 ^ 53) with h' | h'
  · exact f64OfNat_small n h'
  · have : n = 2 ^ 53 := Nat.le_antisymm h h'
    subst this
    have h53 : (2 : Nat) ^ 53 = 9007199254740992 := by norm_num
    rw [h53]
    decide!

theorem totalPagesOf_nat (A B : Nat) (hA : A ≤ 2 ^ 53) (hB : 0 < B) (hB' : B < 2 ^ 53) :
    totalPagesOf (A : Int) (B : Int) = some (((A + B - 1) / B : Nat) : Int) := by
  unfold totalPagesOf
  have hne : (B : Int) ≠ 0 := by omega
  rw [if_neg hne]
  simp only [Int.natAbs_ofNat, f64OfNat_le A hA, f64OfNat_small B hB', f64Div_ceil_le A B hA hB]
  have h1 : decide ((A : Int) < 0) = false := decide_eq_false (by omega)
  have h2 : decide ((B : Int) < 0) = false := decide_eq_false (by omega)
  rw [h1, h2]
  have hle := ceilDiv_le_self A B hB
  generalize (A + B - 1) / B = k at hle ⊢
  simp only [bne_self_eq_false, Bool.false_eq_true, if_false]
  rw [if_pos]
  constructor <;> omega

theorem ceil_cast_div (A B : Nat) (hB : 0 < B) :
    ⌈(((A : Int) : ℚ)) / (((B : Int) : ℚ))⌉ = (((A + B - 1) / B : Nat) : Int) := by
  obtain ⟨h1, h2⟩ := ceilDiv_bounds A B hB
  generalize (A + B - 1) / B = k at h1 h2 ⊢
  have hBq : (0 : ℚ) < (B : ℚ) := by exact_mod_cast hB
  rw [Int.ceil_eq_iff]
  simp only [Int.cast_natCast]
  constructor
  · rw [lt_div_iff₀ hBq]
    have : ((k * B : Nat) : ℚ) < ((A + B : Nat) : ℚ) := by exact_mod_cast h2
    push_cast at this
    linarith
  · rw [div_le_iff₀ hBq]
    exact_mod_cast h1

theorem GetProperties_ok (db : Database) (parseFloat : String → Option Float64)
    (get : String → String) (total : Int) (rows : List (Option Property))
    (hcount : db.queryRowInt (countQueryOf (buildSearchQuery (parseParams parseFloat get)).1)
      (buildSearchQuery (parseParams parseFloat get)).2 = .ok total)
    (hrows : db.queryRows
      ((buildSearchQuery (parseParams parseFloat get)).1
        ++ pageSuffix (parseParams parseFloat get).Limit
            (offsetOf (parseParams parseFloat get).Page (parseParams parseFloat get).Limit))
      (buildSearchQuery (parseParams parseFloat get)).2 = .ok rows) :
    (GetProperties db parseFloat get).1
      = ⟨200, .propertyList
          { Properties := rows.filterMap id, Total := total,
            Page := (parseParams parseFloat get).Page,
            Limit := (parseParams parseFloat get).Limit,
            TotalPages := totalPagesOf total (parseParams parseFloat get).Limit }⟩ := by
  simp only [GetProperties, hcount, hrows]

theorem total_pages_ceil (total limit : Int) (h0 : 0 ≤ total) (h1 : total ≤ 2 ^ 53)
    (hl : 1 ≤ limit) (hl' : limit ≤ 100) :
    totalPagesOf total limit = some ⌈(total : ℚ) / (limit : ℚ)⌉ := by
  obtain ⟨A, rfl⟩ := Int.eq_ofNat_of_zero_le h0
  obtain ⟨B, rfl⟩ := Int.eq_ofNat_of_zero_le (show (0 : Int) ≤ limit by omega)
  have hA : A ≤ 2 ^ 53 := by exact_mod_cast h1
  have hB : 0 < B := by omega
  have hB' : B < 2 ^ 53 := by
    have : B ≤ 100 := by omega
    have : (100 : Nat) < 2 ^ 53 := by decide
    omega
  rw [totalPagesOf_nat A B hA hB hB', ceil_cast_div A B hB]

/-- C7 (amended): for `0 ≤ total ≤ 2^53` and `1 ≤ limit ≤ 100` the value of
`int(math.Ceil(float64(total) / float64(limit)))` is `ceil(total / limit)`, the
least integer `n` with `n * limit ≥ total`; and it is the `TotalPages` field of
the response of `GetProperties` when the database reports `total` matching
rows. -/
theorem total_pages_exact (total limit : Int) (h0 : 0 ≤ total) (h1 : total ≤ 2 ^ 53)
    (hl : 1 ≤ limit) (hl' : limit ≤ 100) :
    totalPagesOf total limit = some ⌈(total : ℚ) / (limit : ℚ)⌉ ∧
    total ≤ ⌈(total : ℚ) / (limit : ℚ)⌉ * limit ∧
    (∀ n : Int, total ≤ n * limit → ⌈(total : ℚ) / (limit : ℚ)⌉ ≤ n) ∧
    ∀ (db : Database) (parseFloat : String → Option Float64) (get : String → String)
      (rows : List (Option Property)),
      db.queryRowInt (countQueryOf (buildSearchQuery (parseParams parseFloat get)).1)
        (buildSearchQuery (parseParams parseFloat get)).2 = .ok total →
      db.queryRows
        ((buildSearchQuery (parseParams parseFloat get)).1
          ++ pageSuffix (parseParams parseFloat get).Limit
              (offsetOf (parseParams parseFloat get).Page (parseParams parseFloat get).Limit))
        (buildSearchQuery (parseParams parseFloat get)).2 = .ok rows →
      (GetProperties db parseFloat get).1
        = ⟨200, .propertyList
            { Properties := rows.filterMap id, Total := total,
              Page := (parseParams parseFloat get).Page,
              Limit := (parseParams parseFloat get).Limit,
              TotalPages :=
                some ⌈(total : ℚ) / ((parseParams parseFloat get).Limit : ℚ)⌉ }⟩ := by
  have hlq : (0 : ℚ) < (limit : ℚ) := by exact_mod_cast (show (0 : Int) < limit by omega)
  refine ⟨total_pages_ceil total limit h0 h1 hl hl', ?_, ?_, ?_⟩
  · have := Int.le_ceil ((total : ℚ) / (limit : ℚ))
    rw [div_le_iff₀ hlq] at this
    exact_mod_cast this
  · intro n hn
    rw [Int.ceil_le, div_le_iff₀ hlq]
    exact_mod_cast hn
  · intro db parseFloat get rows hcount hrows
    have hb := parseLimit_bounds (get "limit")
    rw [GetProperties_ok db parseFloat get total rows hcount hrows,
      total_pages_ceil total (parseParams parseFloat get).Limit h0 h1 hb.1 hb.2]

/-- Witness for C7: 45 rows at 20 a page make 3 pages, no row makes 0 pages,
and 25 rows at 10 a page make 3 pages. -/
theorem total_pages_witness :
    totalPagesOf 45 20 = some ⌈((45 : Int) : ℚ) / ((20 : Int) : ℚ)⌉ ∧
    totalPagesOf 0 20 = some ⌈((0 : Int) : ℚ) / ((20 : Int) : ℚ)⌉ ∧
    totalPagesOf 45 20 = some 3 ∧ totalPagesOf 0 20 = some 0 ∧
    totalPagesOf 25 10 = some 3 :=
  ⟨(total_pages_exact 45 20 (by decide) (by decide) (by decide) (by decide)).1,
   (total_pages_exact 0 20 (by decide) (by decide) (by decide) (by decide)).1,
   by decide!, by decide!, by decide!⟩

/-- Counterexample to C7 as stated: for `total = 2^53 + 1` and `limit = 1` the
conversion `float64(total)` rounds to `2^53`, and the computed value `2^53`
has `n * limit < total`, so it is not `ceil(total / limit)`. -/
theorem total_pages_rounding_counterexample :
    totalPagesOf 9007199254740993 1 = some 9007199254740992 ∧
    (9007199254740992 : Int) * 1 < 9007199254740993 ∧
    totalPagesOf 9007199254740993 1
      ≠ some ⌈((9007199254740993 : Int) : ℚ) / ((1 : Int) : ℚ)⌉ := by
  refine ⟨by decide!, by decide, ?_⟩
  have h : totalPagesOf 9007199254740993 1 = some 9007199254740992 := by decide!
  rw [h]
  norm_num

end Homelytics
